import Mathlib

/-!
Shallow embedding of src/ni_daqmx.c from Signal-IO-NIDAQmx.

Modelling conventions:
- C pointers that may be NULL are modelled as Option; C arrays as List.
- An out-of-bounds array read is modelled by List.getD with default 0, and an
  out-of-bounds array write by List.set (a no-op out of range); comments mark
  the places where the C code would touch memory past an allocation.
- The vendor SDK calls (DAQmxLoadTask, DAQmxGetTaskAttribute, DAQmxStartTask,
  DAQmxGetReadAttribute) are modelled by a LoadEnv record giving the outcome of
  each call.  Semaphores carry no state any claim depends on, so a semaphore is
  modelled as a Unit value: only the allocation of the lock array matters.
- Thread_Start together with the first action of the started worker loop
  (AsyncReadBuffer / AsyncWriteBuffer immediately set isRunning to true) is
  modelled as one synchronous state update on the caller side.
- Dereferencing a NULL pointer is modelled as Except.error; operations that
  cannot dereference NULL in any non-crashing execution stay total.
-/

namespace NIDAQmx

/-- const size_t AQUISITION_BUFFER_LENGTH = 10 (line 35). -/
def AQUISITION_BUFFER_LENGTH : Nat := 10

/-- const size_t SIGNAL_INPUT_CHANNEL_MAX_USES = 5 (line 36). -/
def SIGNAL_INPUT_CHANNEL_MAX_USES : Nat := 5

/-- const bool READ = true (line 38). -/
def READ : Bool := true

/-- const bool WRITE = false (line 39). -/
def WRITE : Bool := false

/-- struct _SignalIOTaskData (lines 41 to 53).  Sample values (float64/double)
are modelled as Int: no claim depends on floating-point arithmetic, only on
which slots are read and written. -/
structure SignalIOTaskData where
  handle : Nat
  threadID : Option Unit
  isRunning : Bool
  mode : Bool
  channelUsesList : Option (List Nat)
  channelLocksList : Option (List Unit)
  channelsNumber : Nat
  samplesList : List Int
  channelValuesList : List Int
deriving DecidableEq

/-- SignalIOTask is a pointer to SignalIOTaskData; the registry stores the
possibly NULL pointer as Option Task. -/
abbrev Task := SignalIOTaskData

/-- The C expression task->channelUsesList[channel]: dereference the uses
pointer and index the array, reading 0 where the C code would read past the
allocation (or through NULL, which no registered task does). -/
def usesAt (t : Task) (channel : Nat) : Nat :=
  (t.channelUsesList.getD []).getD channel 0

/-- CheckTask (lines 302 to 324): scans channelUsesList[0 .. channelsNumber-1];
if some slot is positive the task is still used and nothing changes; otherwise
isRunning is cleared (and the worker joined).  Returns isStillUsed and the
updated task. -/
def CheckTask (t : Task) : Bool × Task :=
  let isStillUsed :=
    match t.channelUsesList with
    | none => false
    | some l => (List.range t.channelsNumber).any (fun channel => decide (0 < l.getD channel 0))
  if isStillUsed then (true, t)
  else (false, { t with isRunning := false })

/-- Read (lines 137 to 156), after the registry lookup: the guards in source
order, then the copy of channelValuesList[channel] (cast to size_t) samples out
of samplesList.  Read never mutates the task. -/
def Read (t : Task) (channel : Nat) : Nat × List Int :=
  if t.channelsNumber ≤ channel then (0, [])
  else if t.isRunning = false then (0, [])
  else if t.mode = WRITE then (0, [])
  else
    let channelAcquiredSamplesCount := (t.channelValuesList.getD channel 0).toNat
    (channelAcquiredSamplesCount,
      (t.samplesList.drop (channel * channelAcquiredSamplesCount)).take channelAcquiredSamplesCount)

/-- CheckInputChannel (lines 158 to 176), after the registry lookup.  Note the
range guard is channel > channelsNumber (line 167), so channel == channelsNumber
passes it and the uses access at line 169/171 is one past the allocation.  The
lazy worker start at line 173 is modelled as setting threadID and isRunning. -/
def CheckInputChannel (t : Task) (channel : Nat) : Bool × Task :=
  if t.mode = WRITE then (false, t)
  else if t.channelsNumber < channel then (false, t)
  else if SIGNAL_INPUT_CHANNEL_MAX_USES ≤ usesAt t channel then (false, t)
  else
    let uses := t.channelUsesList.getD []
    let t2 := { t with channelUsesList := some (uses.set channel (usesAt t channel + 1)) }
    let t3 := if t2.isRunning = false then { t2 with threadID := some (), isRunning := true } else t2
    (true, t3)

/-- Write (lines 178 to 198), after the registry lookup.  The range guard is
channel > channelsNumber (line 189), so channel == channelsNumber passes it and
the store at line 193 is one past channelValuesList. -/
def Write (t : Task) (channel : Nat) (value : Int) : Bool × Task :=
  if t.isRunning = false then (false, t)
  else if t.mode = READ then (false, t)
  else if t.channelsNumber < channel then (false, t)
  else (true, { t with channelValuesList := t.channelValuesList.set channel value })

/-- AcquireOutputChannel (lines 200 to 220), after the registry lookup.  Range
guard channel > channelsNumber (line 211); lazy worker start as above. -/
def AcquireOutputChannel (t : Task) (channel : Nat) : Bool × Task :=
  if t.mode = READ then (false, t)
  else if t.channelsNumber < channel then (false, t)
  else if usesAt t channel = 1 then (false, t)
  else
    let uses := t.channelUsesList.getD []
    let t2 := { t with channelUsesList := some (uses.set channel 1) }
    let t3 := if t2.isRunning = false then { t2 with threadID := some (), isRunning := true } else t2
    (true, t3)

/-- ReleaseOutputChannel (lines 222 to 236), after the registry lookup.  There
is no mode guard; the range guard is channel > channelsNumber (line 231); the
slot is cleared and CheckTask runs. -/
def ReleaseOutputChannel (t : Task) (channel : Nat) : Task :=
  if t.isRunning = false then t
  else if t.channelsNumber < channel then t
  else
    let uses := t.channelUsesList.getD []
    (CheckTask { t with channelUsesList := some (uses.set channel 0) }).2

/-- UnloadTaskData (lines 395 to 419).  The frees at lines 412 to 416 are all
NULL-checked and are modelled as no-ops, as are DAQmxStopTask/DAQmxClearTask.
The Sem_Discard calls at lines 401 to 407, however, index channelLocksList
without any NULL check: in Read mode once per channel (no access when
channelsNumber = 0, since the loop body never runs), otherwise at index 0
unconditionally.  Those dereferences are the only way this function can touch
invalid memory, and they are modelled as Except.error. -/
def UnloadTaskData : Option Task → Except String Unit
  | none => Except.ok ()
  | some t =>
    if t.mode = READ then
      if t.channelsNumber = 0 then Except.ok ()
      else
        match t.channelLocksList with
        | none => Except.error "Sem_Discard dereferences NULL channelLocksList"
        | some locks =>
          if t.channelsNumber ≤ locks.length then Except.ok ()
          else Except.error "Sem_Discard reads past channelLocksList"
    else
      match t.channelLocksList with
      | none => Except.error "Sem_Discard dereferences NULL channelLocksList"
      | some locks =>
        if locks.length = 0 then Except.error "Sem_Discard reads past channelLocksList"
        else Except.ok ()

/-- Outcomes of the vendor SDK calls made by LoadTaskData: whether DAQmxLoadTask
succeeds, the channel count DAQmxGetTaskAttribute reports (none = failure),
whether DAQmxStartTask succeeds, and the DAQmx_Read_NumChans value. -/
structure LoadEnv where
  loadOk : Bool
  numChans : Option Nat
  startOk : Bool
  readChansNumber : Nat
deriving DecidableEq

/-- The task value right after malloc + memset in LoadTaskData (lines 330 to
331), charitably assuming the whole struct is zeroed (the source memset only
covers sizeof(SignalIOTask) bytes, a pointer).  All pointers NULL, mode = 0 =
WRITE, counters 0. -/
def mallocZeroTask : Task :=
  { handle := 0, threadID := none, isRunning := false, mode := WRITE,
    channelUsesList := none, channelLocksList := none, channelsNumber := 0,
    samplesList := [], channelValuesList := [] }

/-- LoadTaskData (lines 326 to 393) up to but not including the failure-path
call to UnloadTaskData: returns the task as built so far together with the
loadError flag.  On full success the returned flag is false. -/
def LoadTaskDataSteps (env : LoadEnv) : Task × Bool :=
  let t := mallocZeroTask
  if env.loadOk then
    let t := { t with handle := 1 }
    match env.numChans with
    | some n =>
      let t := { t with channelsNumber := n,
                        channelUsesList := some (List.replicate n 0),
                        samplesList := List.replicate (n * AQUISITION_BUFFER_LENGTH) 0,
                        channelValuesList := List.replicate n 0 }
      if env.startOk then
        let t := if 0 < env.readChansNumber
          then { t with channelLocksList := some (List.replicate n ()), mode := READ }
          else { t with channelLocksList := some [()], mode := WRITE }
        ({ t with isRunning := false, threadID := none }, false)
      else (t, true)
    | none => (t, true)
  else (t, true)

/-- LoadTaskData result as seen by InitDevice: NULL on loadError (the source
then runs UnloadTaskData on the partial task, see LoadTaskDataSteps), the
loaded task otherwise. -/
def LoadTaskData (env : LoadEnv) : Option Task :=
  let r := LoadTaskDataSteps env
  if r.2 then none else some r.1

/-- The khash map tasksList (lines 57 to 58): key is the khint32 task key, the
value is the possibly NULL SignalIOTask pointer.  An empty list plays the role
of both the empty map and the destroyed/NULL map. -/
abbrev Registry := List (Nat × Option Task)

/-- kh_get: first entry with the given key. -/
def regGet (st : Registry) (k : Nat) : Option (Option Task) :=
  match st with
  | [] => none
  | (k2, v) :: rest => if k2 = k then some v else regGet rest k

/-- kh_put followed by kh_value assignment: insert or overwrite. -/
def regPut (st : Registry) (k : Nat) (v : Option Task) : Registry :=
  match st with
  | [] => [(k, v)]
  | (k2, v2) :: rest => if k2 = k then (k2, v) :: rest else (k2, v2) :: regPut rest k v

/-- kh_del: remove the entry with the given key. -/
def regDel (st : Registry) (k : Nat) : Registry :=
  match st with
  | [] => []
  | (k2, v2) :: rest => if k2 = k then rest else (k2, v2) :: regDel rest k

/-- khash X31 string hash kh_str_hash_func, on the byte values of the name:
h starts at the first character and each further character c updates it to
(h shifted left by 5) - h + c in 32-bit arithmetic, that is 31*h + c mod 2^32. -/
def kh_str_hash_func (s : List Nat) : Nat :=
  match s with
  | [] => 0
  | c :: cs => cs.foldl (fun h c2 => (31 * h + c2) % 4294967296) (c % 4294967296)

/-- EndDevice (lines 95 to 113): unknown id is a no-op; a still-used task (per
CheckTask) is left in place untouched; otherwise the task is unloaded and the
entry deleted (khash destroys the empty map, which the empty list already
represents).  A NULL task value, which InitDevice leaves in the map when
loading fails, makes CheckTask dereference NULL (task->channelUsesList at line
305): modelled as Except.error. -/
def EndDevice (st : Registry) (taskID : Nat) : Except String Registry :=
  match regGet st taskID with
  | none => Except.ok st
  | some none => Except.error "CheckTask dereferences a NULL task"
  | some (some task) =>
    let r := CheckTask task
    if r.1 then Except.ok st
    else
      match UnloadTaskData (some r.2) with
      | Except.error e => Except.error e
      | Except.ok _ => Except.ok (regDel st taskID)

/-- InitDevice (lines 70 to 93).  The returned Bool records whether
LoadTaskData was invoked, i.e. whether a new hardware context was created; the
Int is the returned task id (-1 on failure, reachable only if the failure-path
EndDevice call returned, which it never does: it hits the NULL task). -/
def InitDevice (env : LoadEnv) (st : Registry) (name : List Nat) :
    Except String (Int × Registry × Bool) :=
  let taskKey := kh_str_hash_func name
  match regGet st taskKey with
  | some _ => Except.ok ((taskKey : Int), st, false)
  | none =>
    match LoadTaskData env with
    | none =>
      match EndDevice (regPut st taskKey none) taskKey with
      | Except.error e => Except.error e
      | Except.ok st2 => Except.ok ((-1 : Int), st2, true)
    | some task => Except.ok ((taskKey : Int), regPut st taskKey (some task), true)

/-- n successive calls CheckInputChannel(task, channel): the list of returned
Booleans in call order and the final task state. -/
def checkNTimes : Task → Nat → Nat → List Bool × Task
  | t, _, 0 => ([], t)
  | t, channel, n+1 =>
    let r := CheckInputChannel t channel
    let rest := checkNTimes r.2 channel n
    (r.1 :: rest.1, rest.2)

/-- Expected results of successive reservations starting from use-count k:
each call succeeds exactly while the running count is below the cap. -/
def expectedResults : Nat → Nat → List Bool
  | _, 0 => []
  | k, n+1 => decide (k < SIGNAL_INPUT_CHANNEL_MAX_USES) :: expectedResults (k+1) n

/-- A loaded task in a chosen state: running flag, channel count and use
counters; lock list sized per mode as LoadTaskData allocates it. -/
def mkTask (mode running : Bool) (n : Nat) (uses : List Nat) : Task :=
  { handle := 1, threadID := if running then some () else none, isRunning := running,
    mode := mode, channelUsesList := some uses,
    channelLocksList := some (List.replicate (if mode = READ then n else 1) ()),
    channelsNumber := n,
    samplesList := List.replicate (n * AQUISITION_BUFFER_LENGTH) 0,
    channelValuesList := List.replicate n 0 }

/-- Hardware environment in which loading succeeds with 2 channels, 1 of them a
read channel (Read-mode task). -/
def envOk : LoadEnv := { loadOk := true, numChans := some 2, startOk := true, readChansNumber := 1 }

/-- Hardware environment in which DAQmxLoadTask itself fails. -/
def envLoadFail : LoadEnv := { loadOk := false, numChans := none, startOk := false, readChansNumber := 0 }

/-- Hardware environment in which DAQmxStartTask fails after the buffers were
allocated: the partial task has channelLocksList = NULL and mode = 0 = WRITE. -/
def envStartFail : LoadEnv := { loadOk := true, numChans := some 1, startOk := false, readChansNumber := 0 }

/-- The task LoadTaskData builds in envOk. -/
def tLoaded : Task := (LoadTaskDataSteps envOk).1

/-! ## General helper lemmas -/

theorem getD_set_self {α : Type} :
    ∀ (l : List α) (i : Nat) (v d : α), i < l.length → (l.set i v).getD i d = v
  | [], i, _, _, h => absurd h (by simp)
  | _ :: _, 0, _, _, _ => rfl
  | _ :: l, i+1, v, d, h => getD_set_self l i v d (Nat.lt_of_succ_lt_succ h)

theorem getD_set_ne {α : Type} :
    ∀ (l : List α) (i j : Nat) (v d : α), i ≠ j → (l.set i v).getD j d = l.getD j d
  | [], _, _, _, _, _ => rfl
  | _ :: _, 0, 0, _, _, h => absurd rfl h
  | _ :: _, 0, _+1, _, _, _ => rfl
  | _ :: _, _+1, 0, _, _, _ => rfl
  | _ :: l, i+1, j+1, v, d, h =>
    getD_set_ne l i j v d (fun e => h (congrArg Nat.succ e))

theorem set_oob {α : Type} :
    ∀ (l : List α) (i : Nat) (v : α), l.length ≤ i → l.set i v = l
  | [], _, _, _ => rfl
  | _ :: _, 0, _, h => absurd h (by simp)
  | a :: l, i+1, v, h => congrArg (a :: ·) (set_oob l i v (Nat.le_of_succ_le_succ h))

theorem regGet_regPut_self :
    ∀ (st : Registry) (k : Nat) (v : Option Task), regGet (regPut st k v) k = some v
  | [], k, v => by simp [regPut, regGet]
  | (k2, v2) :: rest, k, v => by
    by_cases h : k2 = k
    · simp [regPut, regGet, h]
    · simp only [regPut, if_neg h, regGet, if_neg h]
      exact regGet_regPut_self rest k v

theorem UnloadTaskData_clear_running (t : Task) (b : Bool) :
    UnloadTaskData (some { t with isRunning := b }) = UnloadTaskData (some t) := rfl

/-! ## Claim theorems -/

/-- Claim C1 (code_bug evidence).  The spec says every channel operation fails
for channel >= channelCount, but four of the five operations guard with
channel > channelsNumber only.  At channel = channelCount = 2:
CheckInputChannel on a running Read-mode task returns true, Write and
AcquireOutputChannel on a running Write-mode task return true, and
ReleaseOutputChannel on a running Read-mode task is not a no-op (it runs
CheckTask, which stops the worker here).  In C each of these accesses the use
or value array one slot past its allocation.  Only Read uses the correct
channel >= channelsNumber guard. -/
theorem C1_off_by_one_range_check :
    (CheckInputChannel (mkTask READ true 2 [0, 0]) 2).1 = true ∧
    (Write (mkTask WRITE true 2 [0, 0]) 2 7).1 = true ∧
    (AcquireOutputChannel (mkTask WRITE true 2 [0, 0]) 2).1 = true ∧
    (ReleaseOutputChannel (mkTask READ true 2 [0, 0]) 2).isRunning = false ∧
    (mkTask READ true 2 [0, 0]).isRunning = true :=
  ⟨rfl, rfl, rfl, rfl, rfl⟩

/-- Claim C2 (counterexample).  The claim says no public operation ever
decreases a Read-mode use-count, but ReleaseOutputChannel has no mode guard:
on a running Read-mode task with use-count 3 on channel 0 it resets the count
to 0. -/
theorem C2_release_decrements_read_count :
    usesAt (mkTask READ true 1 [3]) 0 = 3 ∧
    usesAt (ReleaseOutputChannel (mkTask READ true 1 [3]) 0) 0 = 0 :=
  ⟨rfl, rfl⟩

/-- Claim C2 (amended).  For a Read-mode task, the channel operations other
than ReleaseOutputChannel never decrease a use-count: Write and
AcquireOutputChannel fail leaving the task untouched, CheckInputChannel only
ever increments a count and leaves the task untouched whenever it fails.
(Read returns data and never mutates the task at all: see its definition.) -/
theorem C2_amended_no_decrease_except_release (t : Task) (channel i : Nat) (value : Int)
    (hm : t.mode = READ) :
    Write t channel value = (false, t) ∧
    AcquireOutputChannel t channel = (false, t) ∧
    usesAt t i ≤ usesAt (CheckInputChannel t channel).2 i ∧
    ((CheckInputChannel t channel).1 = false → (CheckInputChannel t channel).2 = t) := by
  refine ⟨?_, ?_, ?_, ?_⟩
  · unfold Write
    by_cases hr : t.isRunning = false
    · rw [if_pos hr]
    · rw [if_neg hr, if_pos hm]
  · unfold AcquireOutputChannel
    rw [if_pos hm]
  · have key : ∀ (l : List Nat) (ch j : Nat), l.getD j 0 ≤ (l.set ch (l.getD ch 0 + 1)).getD j 0 := by
      intro l ch j
      by_cases hch : ch < l.length
      · by_cases hj : j = ch
        · subst hj
          rw [getD_set_self l j _ 0 hch]
          exact Nat.le_succ _
        · rw [getD_set_ne l ch j _ 0 (fun e => hj e.symm)]
      · rw [set_oob l ch _ (Nat.le_of_not_lt hch)]
    unfold CheckInputChannel
    split
    · exact Nat.le_refl _
    · split
      · exact Nat.le_refl _
      · split
        · exact Nat.le_refl _
        · dsimp only
          split
          · exact key (t.channelUsesList.getD []) channel i
          · exact key (t.channelUsesList.getD []) channel i
  · unfold CheckInputChannel
    by_cases h1 : t.mode = WRITE
    · rw [if_pos h1]; simp
    · rw [if_neg h1]
      by_cases h2 : t.channelsNumber < channel
      · rw [if_pos h2]; simp
      · rw [if_neg h2]
        by_cases h3 : SIGNAL_INPUT_CHANNEL_MAX_USES ≤ usesAt t channel
        · rw [if_pos h3]; simp
        · rw [if_neg h3]; simp

/-- Claim C2 (amended) witness at a concrete running Read-mode task. -/
theorem C2_amended_witness :
    Write (mkTask READ true 1 [2]) 0 5 = (false, mkTask READ true 1 [2]) ∧
    AcquireOutputChannel (mkTask READ true 1 [2]) 0 = (false, mkTask READ true 1 [2]) ∧
    usesAt (mkTask READ true 1 [2]) 0 ≤ usesAt (CheckInputChannel (mkTask READ true 1 [2]) 0).2 0 ∧
    ((CheckInputChannel (mkTask READ true 1 [2]) 0).1 = false →
      (CheckInputChannel (mkTask READ true 1 [2]) 0).2 = mkTask READ true 1 [2]) :=
  C2_amended_no_decrease_except_release (mkTask READ true 1 [2]) 0 0 5 rfl

/-- Claim C3 (code_bug evidence).  When DAQmxStartTask fails, LoadTaskData
fails after allocating the buffers but before allocating channelLocksList, and
runs UnloadTaskData on that partial task: its mode is the zero value WRITE and
channelLocksList is NULL, so the un-NULL-checked Sem_Discard at line 407
dereferences NULL.  The claimed per-resource NULL checks exist only for the
free calls, not for the Sem_Discard calls. -/
theorem C3_unload_null_locks_deref :
    LoadTaskData envStartFail = none ∧
    UnloadTaskData (some (LoadTaskDataSteps envStartFail).1) =
      Except.error "Sem_Discard dereferences NULL channelLocksList" :=
  ⟨rfl, rfl⟩

/-- Claim C5 (code_bug evidence).  When loading fails, InitDevice has already
inserted the key with a NULL task value; its cleanup call EndDevice(taskKey)
finds that entry and passes the NULL task to CheckTask, which dereferences it
(task->channelUsesList, line 305).  So a failed Open neither returns -1
cleanly nor leaves the registry without the entry: it crashes with the NULL
entry still present. -/
theorem C5_open_failure_null_task_deref :
    InitDevice envLoadFail [] [97] = Except.error "CheckTask dereferences a NULL task" :=
  rfl

/-- Claim C9.  For every channel index, Read on a Write-mode task returns 0
samples, and Write on a Read-mode task returns false with the task unchanged
(Read returns only data and never mutates the task by construction). -/
theorem C9_mode_mismatch_fails (t : Task) (channel : Nat) (value : Int) :
    (t.mode = WRITE → (Read t channel).1 = 0) ∧
    (t.mode = READ → Write t channel value = (false, t)) := by
  constructor
  · intro hm
    unfold Read
    by_cases h1 : t.channelsNumber ≤ channel
    · rw [if_pos h1]
    · rw [if_neg h1]
      by_cases h2 : t.isRunning = false
      · rw [if_pos h2]
      · rw [if_neg h2, if_pos hm]
  · intro hm
    unfold Write
    by_cases h1 : t.isRunning = false
    · rw [if_pos h1]
    · rw [if_neg h1, if_pos hm]

/-- Claim C9 witness: a running Write-mode task read from, and a running
Read-mode task written to, at channel 0. -/
theorem C9_mode_mismatch_fails_witness :
    (Read (mkTask WRITE true 1 [0]) 0).1 = 0 ∧
    Write (mkTask READ true 1 [0]) 0 3 = (false, mkTask READ true 1 [0]) :=
  ⟨(C9_mode_mismatch_fails (mkTask WRITE true 1 [0]) 0 3).1 rfl,
   (C9_mode_mismatch_fails (mkTask READ true 1 [0]) 0 3).2 rfl⟩

/-- Claim C8.  On a Write-mode task with an in-range channel, after a
successful AcquireOutputChannel a second call on the same channel (no
intervening ReleaseOutputChannel) returns false, leaves the task unchanged,
and the reservation slot stays at 1. -/
theorem C8_second_acquire_fails (t : Task) (l : List Nat) (channel : Nat)
    (hm : t.mode = WRITE) (hu : t.channelUsesList = some l)
    (hc : channel < t.channelsNumber) (hl : channel < l.length)
    (hfirst : (AcquireOutputChannel t channel).1 = true) :
    AcquireOutputChannel (AcquireOutputChannel t channel).2 channel =
      (false, (AcquireOutputChannel t channel).2) ∧
    usesAt (AcquireOutputChannel t channel).2 channel = 1 := by
  have hmr : ¬ t.mode = READ := by rw [hm]; simp [READ, WRITE]
  have hcc : ¬ t.channelsNumber < channel := Nat.not_lt.mpr (Nat.le_of_lt hc)
  by_cases h1 : usesAt t channel = 1
  · exfalso
    unfold AcquireOutputChannel at hfirst
    rw [if_neg hmr, if_neg hcc, if_pos h1] at hfirst
    simp at hfirst
  · have hstep : (AcquireOutputChannel t channel).2.channelUsesList = some (l.set channel 1) ∧
        (AcquireOutputChannel t channel).2.mode = t.mode ∧
        (AcquireOutputChannel t channel).2.channelsNumber = t.channelsNumber := by
      unfold AcquireOutputChannel
      rw [if_neg hmr, if_neg hcc, if_neg h1]
      dsimp only
      split <;> simp [hu]
    obtain ⟨hu1, hm1, hn1⟩ := hstep
    have huses1 : usesAt (AcquireOutputChannel t channel).2 channel = 1 := by
      simp only [usesAt, hu1, Option.getD_some]
      exact getD_set_self l channel 1 0 hl
    generalize hT : (AcquireOutputChannel t channel).2 = t1 at hu1 hm1 hn1 huses1 ⊢
    refine ⟨?_, huses1⟩
    unfold AcquireOutputChannel
    rw [if_neg (show ¬ t1.mode = READ by rw [hm1]; exact hmr),
        if_neg (show ¬ t1.channelsNumber < channel by rw [hn1]; exact hcc),
        if_pos huses1]

/-- Claim C8 witness: fresh running-free Write-mode task with one channel. -/
theorem C8_second_acquire_fails_witness :
    AcquireOutputChannel (AcquireOutputChannel (mkTask WRITE false 1 [0]) 0).2 0 =
      (false, (AcquireOutputChannel (mkTask WRITE false 1 [0]) 0).2) ∧
    usesAt (AcquireOutputChannel (mkTask WRITE false 1 [0]) 0).2 0 = 1 :=
  C8_second_acquire_fails (mkTask WRITE false 1 [0]) [0] 0 rfl rfl (by decide) (by decide) rfl

/-- Claim C10.  ReleaseOutputChannel has no mode guard: on a running Read-mode
task with an in-range channel it sets that channel read-side use-count to 0
and runs CheckTask, which stops the worker (isRunning becomes false) whenever
every other channel use-count is zero. -/
theorem C10_release_ignores_mode (t : Task) (l : List Nat) (channel : Nat)
    (_hm : t.mode = READ) (hr : t.isRunning = true) (hu : t.channelUsesList = some l)
    (hc : channel < t.channelsNumber) (hl : l.length = t.channelsNumber) :
    (ReleaseOutputChannel t channel).channelUsesList = some (l.set channel 0) ∧
    usesAt (ReleaseOutputChannel t channel) channel = 0 ∧
    ((∀ i, i < t.channelsNumber → i ≠ channel → l.getD i 0 = 0) →
      (ReleaseOutputChannel t channel).isRunning = false) := by
  have hrf : ¬ t.isRunning = false := by rw [hr]; simp
  have hcc : ¬ t.channelsNumber < channel := Nat.not_lt.mpr (Nat.le_of_lt hc)
  have hchl : channel < l.length := hl ▸ hc
  have hrel : ReleaseOutputChannel t channel =
      (CheckTask { t with channelUsesList := some (l.set channel 0) }).2 := by
    unfold ReleaseOutputChannel
    rw [if_neg hrf, if_neg hcc]
    dsimp only
    rw [hu]
    rfl
  have h2 : (CheckTask { t with channelUsesList := some (l.set channel 0) }).2.channelUsesList =
      some (l.set channel 0) := by
    unfold CheckTask
    dsimp only
    split <;> rfl
  refine ⟨?_, ?_, ?_⟩
  · rw [hrel]
    exact h2
  · rw [hrel]
    simp only [usesAt, h2, Option.getD_some]
    exact getD_set_self l channel 0 0 hchl
  · intro hz
    have hany : ((List.range t.channelsNumber).any
        fun channel2 => decide (0 < (l.set channel 0).getD channel2 0)) = false := by
      cases hb : (List.range t.channelsNumber).any
          (fun channel2 => decide (0 < (l.set channel 0).getD channel2 0)) with
      | false => rfl
      | true =>
        exfalso
        obtain ⟨x, hx, hpx⟩ := List.any_eq_true.mp hb
        have hxn : x < t.channelsNumber := List.mem_range.mp hx
        have hpos : 0 < (l.set channel 0).getD x 0 := of_decide_eq_true hpx
        by_cases hxc : x = channel
        · subst hxc
          rw [getD_set_self l x 0 0 hchl] at hpos
          exact Nat.lt_irrefl 0 hpos
        · rw [getD_set_ne l channel x 0 0 (fun e => hxc e.symm)] at hpos
          rw [hz x hxn hxc] at hpos
          exact Nat.lt_irrefl 0 hpos
    rw [hrel]
    unfold CheckTask
    dsimp only
    rw [hany, if_neg Bool.false_ne_true]

/-- Claim C10 witness: running Read-mode task, channels [2, 0], release of
channel 0 zeroes the count and stops the worker. -/
theorem C10_release_ignores_mode_witness :
    (ReleaseOutputChannel (mkTask READ true 2 [2, 0]) 0).channelUsesList =
      some (([2, 0] : List Nat).set 0 0) ∧
    usesAt (ReleaseOutputChannel (mkTask READ true 2 [2, 0]) 0) 0 = 0 ∧
    (ReleaseOutputChannel (mkTask READ true 2 [2, 0]) 0).isRunning = false := by
  have h := C10_release_ignores_mode (mkTask READ true 2 [2, 0]) [2, 0] 0
    rfl rfl rfl (by decide) (by decide)
  exact ⟨h.1, h.2.1, h.2.2 (by decide)⟩

/-- Claim C4.  For a registered (non-NULL, unloadable) task: EndDevice leaves
the registry (and the task) unchanged when some reservation slot is nonzero,
and unloads the task and deletes its entry when all slots are zero. -/
theorem C4_close_respects_reservations (st : Registry) (taskID : Nat) (t : Task) (l : List Nat)
    (hreg : regGet st taskID = some (some t)) (hu : t.channelUsesList = some l)
    (hunload : UnloadTaskData (some t) = Except.ok ()) :
    ((∃ i, i < t.channelsNumber ∧ 0 < l.getD i 0) → EndDevice st taskID = Except.ok st) ∧
    ((∀ i, i < t.channelsNumber → l.getD i 0 = 0) →
      EndDevice st taskID = Except.ok (regDel st taskID)) := by
  constructor
  · rintro ⟨i, hi, hpos⟩
    have hany : ((List.range t.channelsNumber).any fun channel => decide (0 < l.getD channel 0)) = true :=
      List.any_eq_true.mpr ⟨i, List.mem_range.mpr hi, decide_eq_true hpos⟩
    have hct : CheckTask t = (true, t) := by
      unfold CheckTask
      rw [hu]
      dsimp only
      rw [hany, if_pos rfl]
    unfold EndDevice
    rw [hreg]
    dsimp only
    rw [hct, if_pos rfl]
  · intro hz
    have hany : ((List.range t.channelsNumber).any fun channel => decide (0 < l.getD channel 0)) = false := by
      cases hb : (List.range t.channelsNumber).any (fun channel => decide (0 < l.getD channel 0)) with
      | false => rfl
      | true =>
        exfalso
        obtain ⟨x, hx, hpx⟩ := List.any_eq_true.mp hb
        rw [hz x (List.mem_range.mp hx)] at hpx
        exact absurd (of_decide_eq_true hpx) (Nat.lt_irrefl 0)
    have hct : CheckTask t = (false, { t with isRunning := false }) := by
      unfold CheckTask
      rw [hu]
      dsimp only
      rw [hany, if_neg Bool.false_ne_true]
    unfold EndDevice
    rw [hreg]
    dsimp only
    rw [hct, if_neg Bool.false_ne_true, UnloadTaskData_clear_running t false, hunload]

/-- Claim C4 witness: one-channel Read tasks under key 7, one with a nonzero
slot (survives) and one fully unreserved (unloaded and removed). -/
theorem C4_close_respects_reservations_witness :
    EndDevice [(7, some (mkTask READ false 1 [1]))] 7 =
      Except.ok [(7, some (mkTask READ false 1 [1]))] ∧
    EndDevice [(7, some (mkTask READ false 1 [0]))] 7 =
      Except.ok (regDel [(7, some (mkTask READ false 1 [0]))] 7) :=
  ⟨(C4_close_respects_reservations [(7, some (mkTask READ false 1 [1]))] 7
      (mkTask READ false 1 [1]) [1] rfl rfl rfl).1 ⟨0, by decide, by decide⟩,
   (C4_close_respects_reservations [(7, some (mkTask READ false 1 [0]))] 7
      (mkTask READ false 1 [0]) [0] rfl rfl rfl).2 (by decide)⟩

/-- Claim C6.  Whenever InitDevice returns successfully, calling it again with
the same name (under any hardware environment) returns the same identifier,
leaves the registry untouched, and does not invoke LoadTaskData (the returned
Bool is false), i.e. creates no second task instance or hardware context. -/
theorem C6_open_idempotent (env env2 : LoadEnv) (st : Registry) (name : List Nat)
    (k : Int) (st1 : Registry) (b : Bool)
    (h : InitDevice env st name = Except.ok (k, st1, b)) :
    InitDevice env2 st1 name = Except.ok (k, st1, false) := by
  unfold InitDevice at h ⊢
  dsimp only at h ⊢
  cases hg : regGet st (kh_str_hash_func name) with
  | some v =>
    rw [hg] at h
    simp only [Except.ok.injEq, Prod.mk.injEq] at h
    obtain ⟨hk, hst, hb⟩ := h
    subst hst
    rw [hg]
    simp [hk]
  | none =>
    rw [hg] at h
    cases hload : LoadTaskData env with
    | none =>
      rw [hload] at h
      have hend : EndDevice (regPut st (kh_str_hash_func name) none) (kh_str_hash_func name) =
          Except.error "CheckTask dereferences a NULL task" := by
        unfold EndDevice
        rw [regGet_regPut_self]
      rw [hend] at h
      simp at h
    | some task =>
      rw [hload] at h
      simp only [Except.ok.injEq, Prod.mk.injEq] at h
      obtain ⟨hk, hst, hb⟩ := h
      subst hst
      rw [regGet_regPut_self]
      simp [hk]

/-- Claim C6 witness: a second Open of the already loaded name [97], under a
hardware environment in which every load would fail, still returns the same
identifier 97 with the registry unchanged and no load performed. -/
theorem C6_open_idempotent_witness :
    InitDevice envLoadFail [(97, some tLoaded)] [97] =
      Except.ok ((97 : Int), [(97, some tLoaded)], false) :=
  C6_open_idempotent envOk envLoadFail [] [97] 97 [(97, some tLoaded)] true rfl

/-! ## Machinery for repeated input reservations (claim C7) -/

theorem checkNTimes_succ (t : Task) (channel n : Nat) :
    checkNTimes t channel (n+1) =
      ((CheckInputChannel t channel).1 ::
         (checkNTimes (CheckInputChannel t channel).2 channel n).1,
       (checkNTimes (CheckInputChannel t channel).2 channel n).2) := rfl

theorem expectedResults_succ (k n : Nat) :
    expectedResults k (n+1) =
      decide (k < SIGNAL_INPUT_CHANNEL_MAX_USES) :: expectedResults (k+1) n := rfl

theorem expectedResults_sat :
    ∀ (n k : Nat), SIGNAL_INPUT_CHANNEL_MAX_USES ≤ k →
      expectedResults k n = List.replicate n false := by
  intro n
  induction n with
  | zero => intro k _; rfl
  | succ n ih =>
    intro k hk
    rw [expectedResults_succ, ih (k+1) (Nat.le_succ_of_le hk), List.replicate_succ,
        decide_eq_false (Nat.not_lt.mpr hk)]

theorem expectedResults_replicate :
    ∀ (n k : Nat), k ≤ SIGNAL_INPUT_CHANNEL_MAX_USES →
      expectedResults k n =
        List.replicate (min n (SIGNAL_INPUT_CHANNEL_MAX_USES - k)) true ++
        List.replicate (n - (SIGNAL_INPUT_CHANNEL_MAX_USES - k)) false := by
  intro n
  induction n with
  | zero => intro k _; simp [expectedResults]
  | succ n ih =>
    intro k hk
    by_cases hklt : k < SIGNAL_INPUT_CHANNEL_MAX_USES
    · have h1 : SIGNAL_INPUT_CHANNEL_MAX_USES - k = (SIGNAL_INPUT_CHANNEL_MAX_USES - (k+1)) + 1 := by
        omega
      rw [expectedResults_succ, ih (k+1) hklt, decide_eq_true hklt, h1,
          Nat.succ_min_succ, Nat.succ_sub_succ, List.replicate_succ, List.cons_append]
    · have hk5 : SIGNAL_INPUT_CHANNEL_MAX_USES ≤ k := Nat.le_of_not_lt hklt
      have h0 : SIGNAL_INPUT_CHANNEL_MAX_USES - k = 0 := Nat.sub_eq_zero_of_le hk5
      rw [expectedResults_sat (n+1) k hk5, h0]
      simp

/-- Single-channel invariant of repeated CheckInputChannel calls: starting
from use-count k (at most the cap), the i-th call succeeds exactly when
k + i is below the cap, and afterwards the count is min (k + n) cap. -/
theorem checkN_spec :
    ∀ (n : Nat) (t : Task) (l : List Nat) (k channel : Nat),
      t.mode = READ →
      t.channelUsesList = some l →
      channel < t.channelsNumber →
      channel < l.length →
      l.getD channel 0 = k →
      k ≤ SIGNAL_INPUT_CHANNEL_MAX_USES →
      (checkNTimes t channel n).1 = expectedResults k n ∧
        usesAt (checkNTimes t channel n).2 channel =
          min (k + n) SIGNAL_INPUT_CHANNEL_MAX_USES := by
  intro n
  induction n with
  | zero =>
    intro t l k channel _hm hu _hc _hl hk hk5
    constructor
    · rfl
    · show usesAt t channel = min (k + 0) SIGNAL_INPUT_CHANNEL_MAX_USES
      rw [Nat.add_zero, Nat.min_eq_left hk5]
      simp only [usesAt, hu, Option.getD_some]
      exact hk
  | succ n ih =>
    intro t l k channel hm hu hc hl hk hk5
    have hmw : ¬ t.mode = WRITE := by rw [hm]; simp [READ, WRITE]
    have hcc : ¬ t.channelsNumber < channel := Nat.not_lt.mpr (Nat.le_of_lt hc)
    have husesAt : usesAt t channel = k := by
      simp only [usesAt, hu, Option.getD_some]
      exact hk
    by_cases hsat : SIGNAL_INPUT_CHANNEL_MAX_USES ≤ usesAt t channel
    · have hk5e : SIGNAL_INPUT_CHANNEL_MAX_USES ≤ k := husesAt ▸ hsat
      have hstep : CheckInputChannel t channel = (false, t) := by
        unfold CheckInputChannel
        rw [if_neg hmw, if_neg hcc, if_pos hsat]
      have hrec := ih t l k channel hm hu hc hl hk hk5
      constructor
      · rw [checkNTimes_succ, hstep]
        dsimp only
        rw [hrec.1, expectedResults_succ, decide_eq_false (Nat.not_lt.mpr hk5e),
            expectedResults_sat n k hk5e, expectedResults_sat n (k+1) (Nat.le_succ_of_le hk5e)]
      · rw [checkNTimes_succ, hstep]
        dsimp only
        rw [hrec.2]
        have hke : k = SIGNAL_INPUT_CHANNEL_MAX_USES := Nat.le_antisymm hk5 hk5e
        subst hke
        rw [Nat.min_eq_right (Nat.le_add_right _ n), Nat.min_eq_right (Nat.le_add_right _ (n+1))]
    · have hklt : k < SIGNAL_INPUT_CHANNEL_MAX_USES := by
        rw [husesAt] at hsat
        exact Nat.not_le.mp hsat
      have hstep : (CheckInputChannel t channel).1 = true ∧
          (CheckInputChannel t channel).2.mode = t.mode ∧
          (CheckInputChannel t channel).2.channelsNumber = t.channelsNumber ∧
          (CheckInputChannel t channel).2.channelUsesList = some (l.set channel (k+1)) := by
        unfold CheckInputChannel
        rw [if_neg hmw, if_neg hcc, if_neg hsat]
        dsimp only
        split <;> simp [hu, husesAt]
      obtain ⟨hs1, hsm, hsn, hsu⟩ := hstep
      have hrec := ih (CheckInputChannel t channel).2 (l.set channel (k+1)) (k+1) channel
        (by rw [hsm]; exact hm) hsu (by rw [hsn]; exact hc)
        (by rw [List.length_set]; exact hl)
        (getD_set_self l channel (k+1) 0 hl) hklt
      constructor
      · rw [checkNTimes_succ]
        dsimp only
        rw [hs1, hrec.1, expectedResults_succ, decide_eq_true hklt]
      · rw [checkNTimes_succ]
        dsimp only
        rw [hrec.2]
        congr 1
        omega

/-- Claim C7.  On a Read-mode task with an in-range channel starting at
use-count 0, among n successive CheckInputChannel calls the first
MaxConcurrentReaders = 5 return true and every later call returns false, and
the final use-count is min n 5: the failing calls do not change the count. -/
theorem C7_reserve_input_saturates (t : Task) (l : List Nat) (channel n : Nat)
    (hm : t.mode = READ) (hu : t.channelUsesList = some l)
    (hc : channel < t.channelsNumber) (hl : channel < l.length)
    (hfresh : l.getD channel 0 = 0) :
    (checkNTimes t channel n).1 =
      List.replicate (min n SIGNAL_INPUT_CHANNEL_MAX_USES) true ++
      List.replicate (n - SIGNAL_INPUT_CHANNEL_MAX_USES) false ∧
    usesAt (checkNTimes t channel n).2 channel = min n SIGNAL_INPUT_CHANNEL_MAX_USES := by
  have h := checkN_spec n t l 0 channel hm hu hc hl hfresh (Nat.zero_le _)
  constructor
  · rw [h.1, expectedResults_replicate n 0 (Nat.zero_le _)]
    simp only [Nat.sub_zero]
  · rw [h.2, Nat.zero_add]

/-- Claim C7 witness: 7 reservations of channel 0 on a fresh 2-channel
Read-mode task give results [true x 5, false x 2] and final count 5. -/
theorem C7_reserve_input_saturates_witness :
    (checkNTimes (mkTask READ false 2 [0, 0]) 0 7).1 =
      List.replicate (min 7 SIGNAL_INPUT_CHANNEL_MAX_USES) true ++
      List.replicate (7 - SIGNAL_INPUT_CHANNEL_MAX_USES) false ∧
    usesAt (checkNTimes (mkTask READ false 2 [0, 0]) 0 7).2 0 =
      min 7 SIGNAL_INPUT_CHANNEL_MAX_USES :=
  C7_reserve_input_saturates (mkTask READ false 2 [0, 0]) [0, 0] 0 7
    rfl rfl (by decide) (by decide) rfl

end NIDAQmx
